import Mathlib

/-!
Verification development for the pyrobosim hallway partial-observability
path execution core (`pyrobosim/navigation/execution.py`).

The embedding translates the `ConstantVelocityExecutor` class into pure
Lean functions.  Machine floats become rationals; external collaborators
(the pose distance function, the world collision checker, the lidar
containment test, trigonometric functions) are passed in as explicit
function parameters, since they live outside the translated file.  The
two background threads (path validator and hallway tracker) communicate
with the main loop through shared boolean flags; their concurrent writes
are modelled by per-tick oracles in an `Env` record: at each main-loop
tick the shared flag is the disjunction of its previous value and the
oracle event for that tick.
-/

namespace Pyrobosim

/-- A 2D pose: position and heading (pyrobosim.utils.pose.Pose, as used by
execution.py). -/
structure Pose where
  x : ℚ
  y : ℚ
  yaw : ℚ
deriving DecidableEq

/-- A path: an ordered sequence of poses (pyrobosim.utils.path.Path). -/
structure Path where
  poses : List Pose
deriving DecidableEq

/-- Number of poses in a path (Path.num_poses). -/
def Path.num_poses (p : Path) : Nat := p.poses.length

/-- A trajectory: timestamps paired with poses
(pyrobosim.utils.trajectory.Trajectory). -/
structure Trajectory where
  t_pts : List ℚ
  poses : List Pose
deriving DecidableEq

/-- Number of points in a trajectory (Trajectory.num_points). -/
def Trajectory.num_points (traj : Trajectory) : Nat := traj.t_pts.length

/-- Execution status constants (pyrobosim.planning.actions.ExecutionStatus). -/
inductive ExecutionStatus where
  | SUCCESS
  | CANCELED
  | EXECUTION_FAILURE
  | PRECONDITION_FAILURE
deriving DecidableEq

/-- Result of one execute call (pyrobosim.planning.actions.ExecutionResult). -/
structure ExecutionResult where
  status : ExecutionStatus
  message : String
deriving DecidableEq

/-- The concrete planner class attached to the robot.  execution.py only
tests membership in the PRMPlanner and AStarPlanner classes. -/
inductive PlannerType where
  | prm
  | astar
  | rrt
  | worldGraph
  | other
deriving DecidableEq

/-- The isinstance test at lines 186-188 of execution.py: the planner is a
PRMPlanner or an AStarPlanner. -/
def PlannerType.isPRMOrAStar : PlannerType → Bool
  | .prm => true
  | .astar => true
  | _ => false

/-- The robot fields read and written by the executor. -/
structure Robot where
  pose : Pose
  battery_level : ℚ
  manipulated_object : Option Pose
  world_present : Bool
  fog_hallways : Bool
  path_planner : PlannerType
  planner_reset_count : Nat
  last_nav_result : Option ExecutionResult
deriving DecidableEq

/-- The five shared execution-state fields of the executor. -/
structure ExecState where
  current_traj_time : ℚ
  following_path : Bool
  abort_execution : Bool
  cancel_execution : Bool
  hallway_states_updated : Bool
deriving DecidableEq

/-- reset_state: the clean baseline for all execution-state fields. -/
def reset_state : ExecState :=
  { current_traj_time := 0
    following_path := false
    abort_execution := false
    cancel_execution := false
    hallway_states_updated := false }

/-- The environment of the main loop: per-tick oracles for the concurrent
writes of the background threads and the external caller, plus the pose
distance function (Pose.get_linear_distance, external to execution.py).
At tick i the shared abort flag becomes the disjunction of its previous
value and `abortSet i`, and similarly for the cancel and hallway flags. -/
structure Env where
  abortSet : Nat → Bool
  cancelSet : Nat → Bool
  hallwaySet : Nat → Bool
  dist : Pose → Pose → ℚ

/-- How the main loop of execute exited. -/
inductive ExitKind where
  | completed
  | aborted
  | canceled
  | depleted
deriving DecidableEq

/-- Outcome of the main for-loop of execute (lines 144-182): final status
and message, shared state, robot, which tick broke the loop (none for a
full run), and which background threads were joined on the way out. -/
structure LoopOut where
  status : ExecutionStatus
  message : String
  state : ExecState
  robot : Robot
  exitKind : ExitKind
  exitTick : Option Nat
  joinedValidator : Bool
  joinedLidar : Bool
deriving DecidableEq

/-- The main for-loop of execute (lines 144-182 of execution.py), one
iteration per interpolated sample.  Each tick: write the sample timestamp
to current_traj_time, push the sample pose to the robot and to any
manipulated object, then check the abort flag (joining both background
threads and failing), then the cancel flag (clearing it and cancelling),
then apply battery drain with clamping at zero, and recurse on the rest. -/
def execLoop (env : Env) (battery_usage : ℚ)
    (validate_during_execution validationTimer fogHallways lidarTimer : Bool) :
    List (ℚ × Pose) → Nat → Pose → ExecState → Robot → LoopOut
  | [], _, _, st, robot =>
    { status := .SUCCESS
      message := ""
      state := st
      robot := robot
      exitKind := .completed
      exitTick := none
      joinedValidator := false
      joinedLidar := false }
  | (t, p) :: rest, i, prev_pose, st, robot =>
    let st :=
      { st with
        current_traj_time := t
        abort_execution := st.abort_execution || env.abortSet i
        cancel_execution := st.cancel_execution || env.cancelSet i
        hallway_states_updated := st.hallway_states_updated || env.hallwaySet i }
    let robot :=
      { robot with
        pose := p
        manipulated_object := robot.manipulated_object.map fun _ => p }
    if st.abort_execution then
      { status := .EXECUTION_FAILURE
        message := "Trajectory execution aborted."
        state := st
        robot := robot
        exitKind := .aborted
        exitTick := some i
        joinedValidator := validate_during_execution && validationTimer
        joinedLidar := fogHallways && lidarTimer }
    else if st.cancel_execution then
      { status := .CANCELED
        message := "Trajectory execution canceled by user."
        state := { st with cancel_execution := false }
        robot := robot
        exitKind := .canceled
        exitTick := some i
        joinedValidator := false
        joinedLidar := false }
    else
      let b := robot.battery_level - battery_usage * env.dist p prev_pose
      if b ≤ 0 then
        { status := .EXECUTION_FAILURE
          message := "Battery depleted while navigating."
          state := st
          robot := { robot with battery_level := 0 }
          exitKind := .depleted
          exitTick := some i
          joinedValidator := false
          joinedLidar := false }
      else
        execLoop env battery_usage validate_during_execution validationTimer
          fogHallways lidarTimer rest (i + 1) p st { robot with battery_level := b }

/-- Outcome of one execute call: the returned result, the execution state
and robot after the call, the traj attribute after the call, whether the
two background threads were started and joined, and ghost observations of
the main loop (the state just before the final reset, how and where the
loop exited, whether the planner reset hook ran).  When the preconditions
fail, exitKind is none: the main loop never ran. -/
structure ExecOut where
  result : ExecutionResult
  state : ExecState
  robot : Option Robot
  trajAttr : Option Trajectory
  validatorStarted : Bool
  lidarStarted : Bool
  joinedValidator : Bool
  joinedLidar : Bool
  loopState : ExecState
  exitKind : Option ExitKind
  exitTick : Option Nat
  plannerResetInvoked : Bool
deriving DecidableEq

/-- Configuration of a ConstantVelocityExecutor (constructor arguments). -/
structure ExecutorConfig where
  dt : ℚ
  linear_velocity : ℚ
  max_angular_velocity : Option ℚ
  validate_during_execution : Bool
  validation_dt : ℚ
  validation_step_dist : ℚ
  lidar_sensor_name : Option String
  lidar_sensor_measurement_dt : ℚ
deriving DecidableEq

/-- execute (lines 77-196 of execution.py).  The trajectory generator and
the interpolator are imported functions (pyrobosim.utils.trajectory) and
are passed in as fallible parameters.  `robotOpt` is the attached robot
(none when no robot is attached), `validationTimer0` and `lidarTimer0`
say whether the two timer attributes already hold a thread object from an
earlier call, `traj0` is the previous traj attribute, and `st0` the
execution state on entry.  `lateHallway` and `lateCancel` model a tracker
write to hallway_states_updated and an external cancel request landing
after the last loop-tick flag check but before the final reset. -/
def execute (cfg : ExecutorConfig) (env : Env)
    (get_constant_speed_trajectory : Path → ℚ → Option ℚ → Option Trajectory)
    (interpolate_trajectory : Trajectory → ℚ → Option Trajectory)
    (robotOpt : Option Robot) (validationTimer0 lidarTimer0 : Bool)
    (traj0 : Option Trajectory) (st0 : ExecState)
    (path : Path) (battery_usage : ℚ) (lateHallway lateCancel : Bool) : ExecOut :=
  match robotOpt with
  | none =>
    { result :=
        { status := .PRECONDITION_FAILURE
          message := "No robot attached to execute the trajectory." }
      state := st0
      robot := none
      trajAttr := traj0
      validatorStarted := false
      lidarStarted := false
      joinedValidator := false
      joinedLidar := false
      loopState := st0
      exitKind := none
      exitTick := none
      plannerResetInvoked := false }
  | some robot =>
    if path.num_poses < 2 then
      { result :=
          { status := .PRECONDITION_FAILURE
            message := "Not enough waypoints in path to execute." }
        state := st0
        robot := some robot
        trajAttr := traj0
        validatorStarted := false
        lidarStarted := false
        joinedValidator := false
        joinedLidar := false
        loopState := st0
        exitKind := none
        exitTick := none
        plannerResetInvoked := false }
    else
      match
        get_constant_speed_trajectory path cfg.linear_velocity
          cfg.max_angular_velocity with
      | none =>
        { result :=
            { status := .PRECONDITION_FAILURE
              message := "Failed to get trajectory from path." }
          state := st0
          robot := some robot
          trajAttr := none
          validatorStarted := false
          lidarStarted := false
          joinedValidator := false
          joinedLidar := false
          loopState := st0
          exitKind := none
          exitTick := none
          plannerResetInvoked := false }
      | some traj =>
        match interpolate_trajectory traj cfg.dt with
        | none =>
          { result :=
              { status := .PRECONDITION_FAILURE
                message := "Failed to interpolate trajectory." }
            state := st0
            robot := some robot
            trajAttr := some traj
            validatorStarted := false
            lidarStarted := false
            joinedValidator := false
            joinedLidar := false
            loopState := st0
            exitKind := none
            exitTick := none
            plannerResetInvoked := false }
        | some traj_interp =>
          let st := { reset_state with following_path := true }
          let validatorStarted :=
            cfg.validate_during_execution && robot.world_present
          let validationTimer := validationTimer0 || validatorStarted
          let lidarStarted := robot.fog_hallways
          let lidarTimer := lidarTimer0 || lidarStarted
          let samples := traj_interp.t_pts.zip traj_interp.poses
          let prev_pose := traj_interp.poses.headD { x := 0, y := 0, yaw := 0 }
          let out :=
            execLoop env battery_usage cfg.validate_during_execution
              validationTimer robot.fog_hallways lidarTimer samples 0 prev_pose
              st robot
          let stAfter :=
            { out.state with
              hallway_states_updated :=
                out.state.hallway_states_updated || lateHallway
              cancel_execution := out.state.cancel_execution || lateCancel }
          let doReset :=
            stAfter.hallway_states_updated && out.robot.path_planner.isPRMOrAStar
          let robotAfter :=
            if doReset then
              { out.robot with
                planner_reset_count := out.robot.planner_reset_count + 1 }
            else out.robot
          let result : ExecutionResult :=
            { status := out.status, message := out.message }
          let robotFinal := { robotAfter with last_nav_result := some result }
          { result := result
            state := reset_state
            robot := some robotFinal
            trajAttr := some traj
            validatorStarted := validatorStarted
            lidarStarted := lidarStarted
            joinedValidator := out.joinedValidator
            joinedLidar := out.joinedLidar
            loopState := stAfter
            exitKind := some out.exitKind
            exitTick := out.exitTick
            plannerResetInvoked := doReset }

/-- A hallway as the executor sees it: identity, the ground-truth open
flag, and (abstract) collision polygon represented through the external
containment test passed to the tracker. -/
structure Hallway where
  name : String
  is_open : Bool
deriving DecidableEq

/-- The waypoint-index search of validate_remaining_path (lines 217-219):
a Python for-loop over the timestamp list with enumerate, breaking at the
first timestamp ≥ cur_time; when no timestamp qualifies, the loop runs to
the end and the index variable keeps the last index. -/
def findWaypointIdx : List ℚ → ℚ → Nat
  | [], _ => 0
  | [_], _ => 0
  | t :: u :: rest, cur_time =>
    if cur_time ≤ t then 0 else findWaypointIdx (u :: rest) cur_time + 1

/-- Observable outcome of one iteration of the validator loop: whether
the iteration returns from the whole loop, whether the collision check
ran, whether it set the abort flag, and the candidate remaining path it
built (ghost, empty on the early-return branch). -/
structure ValidatorIterOut where
  exitsLoop : Bool
  checked : Bool
  abortRaised : Bool
  candidate : List Pose
deriving DecidableEq

/-- One iteration of validate_remaining_path (lines 211-241 of
execution.py), given the snapshot of the robot pose and
current_traj_time taken at the top of the iteration.  The world
collision checker is the external parameter `is_path_collision_free`,
receiving the candidate path, the discretization step, the fog flag and
the recorded-closed set, exactly as at lines 229-234. -/
def validate_iteration (traj : Trajectory) (cur_pose : Pose) (cur_time : ℚ)
    (world_present : Bool) (validation_step_dist : ℚ) (fog_hallways : Bool)
    (recorded_closed_hallways : List Hallway)
    (is_path_collision_free : Path → ℚ → Bool → List Hallway → Bool) :
    ValidatorIterOut :=
  let idx := findWaypointIdx traj.t_pts cur_time
  if idx = traj.num_points - 1 then
    { exitsLoop := true, checked := false, abortRaised := false, candidate := [] }
  else
    let poses := cur_pose :: traj.poses.drop idx
    if 2 < poses.length then
      if world_present then
        if is_path_collision_free { poses := poses } validation_step_dist
            fog_hallways recorded_closed_hallways then
          { exitsLoop := false, checked := true, abortRaised := false
            candidate := poses }
        else
          { exitsLoop := false, checked := true, abortRaised := true
            candidate := poses }
      else
        { exitsLoop := false, checked := false, abortRaised := false
          candidate := poses }
    else
      { exitsLoop := false, checked := false, abortRaised := false
        candidate := poses }

/-- The beam-to-point conversion of detect_closed_hallway (lines
274-282): zip angles with measured lengths, keep the beams strictly
inside the maximum range, and convert each to a world-frame point from
the robot pose and yaw.  The trigonometric functions are external
(numpy) and passed in as parameters. -/
def lidar_points (measured_angles measured_lengths : List ℚ)
    (max_range_m : ℚ) (cur_pose : Pose) (rcos rsin : ℚ → ℚ) :
    List (ℚ × ℚ) :=
  (measured_angles.zip measured_lengths).filterMap fun al =>
    if al.2 < max_range_m then
      some (cur_pose.x + al.2 * rcos (al.1 + cur_pose.yaw),
            cur_pose.y + al.2 * rsin (al.1 + cur_pose.yaw))
    else none

/-- The inner hallway scan of detect_closed_hallway (lines 285-306) for
one measured point: walk the world hallway list; at a hallway whose
polygon contains the point, add it to the recorded-closed set if ground
truth says closed and it is not recorded (and stop), remove it if ground
truth says open and it is recorded (and stop); in either update case the
hallway_states_updated flag becomes true; otherwise keep scanning. -/
def scanPoint (contains : Hallway → ℚ × ℚ → Bool) (pt : ℚ × ℚ) :
    List Hallway → List Hallway → Bool → List Hallway × Bool
  | [], recorded, updated => (recorded, updated)
  | h :: rest, recorded, updated =>
    if contains h pt then
      if h.is_open then
        if h ∈ recorded then (recorded.erase h, true)
        else scanPoint contains pt rest recorded updated
      else
        if h ∈ recorded then scanPoint contains pt rest recorded updated
        else (h :: recorded, true)
    else scanPoint contains pt rest recorded updated

/-- One iteration of the detect_closed_hallway loop (lines 270-310):
convert the qualifying beams to points, then fold the per-point hallway
scan over those points, threading the recorded-closed set and the
hallway_states_updated flag. -/
def detect_iteration (measured_angles measured_lengths : List ℚ)
    (max_range_m : ℚ) (cur_pose : Pose) (rcos rsin : ℚ → ℚ)
    (hallways : List Hallway) (contains : Hallway → ℚ × ℚ → Bool)
    (recorded : List Hallway) (updated : Bool) : List Hallway × Bool :=
  (lidar_points measured_angles measured_lengths max_range_m cur_pose rcos
      rsin).foldl
    (fun acc pt => scanPoint contains pt hallways acc.1 acc.2)
    (recorded, updated)

/-- Whether the recorded ground truth of a hallway disagrees with the
recorded-closed set: closed but not recorded, or open but recorded.
These are exactly the two cases in which the scan updates the set. -/
def stateDisagrees (h : Hallway) (recorded : List Hallway) : Bool :=
  if h.is_open then decide (h ∈ recorded) else decide (h ∉ recorded)

/-- A value in the serialized configuration record: Python strings,
numbers, booleans and None. -/
inductive ConfigValue where
  | s : String → ConfigValue
  | q : ℚ → ConfigValue
  | b : Bool → ConfigValue
  | null : ConfigValue
deriving DecidableEq

/-- Encode an optional rational the way Python would store the attribute
in the dictionary: the number itself, or None. -/
def ConfigValue.ofOptQ : Option ℚ → ConfigValue
  | some v => .q v
  | none => .null

/-- Encode an optional string the same way. -/
def ConfigValue.ofOptS : Option String → ConfigValue
  | some v => .s v
  | none => .null

/-- to_dict (lines 312-328 of execution.py): serialize the executor
configuration to a flat key/value record. -/
def to_dict (cfg : ExecutorConfig) : List (String × ConfigValue) :=
  [("type", .s "constant_velocity"),
   ("dt", .q cfg.dt),
   ("linear_velocity", .q cfg.linear_velocity),
   ("max_angular_velocity", .ofOptQ cfg.max_angular_velocity),
   ("validate_during_execution", .b cfg.validate_during_execution),
   ("validation_dt", .q cfg.validation_dt),
   ("validation_step_dist", .q cfg.validation_step_dist),
   ("lidar_sensor_name", .ofOptS cfg.lidar_sensor_name),
   ("lidar_sensor_measurement_dt", .q cfg.lidar_sensor_measurement_dt)]

/-- Fetch a required rational field from a record. -/
def lookupQ (d : List (String × ConfigValue)) (k : String) : Option ℚ :=
  match d.lookup k with
  | some (.q v) => some v
  | _ => none

/-- Fetch a required boolean field from a record. -/
def lookupB (d : List (String × ConfigValue)) (k : String) : Option Bool :=
  match d.lookup k with
  | some (.b v) => some v
  | _ => none

/-- Fetch an optional rational field from a record (None means absent). -/
def lookupOptQ (d : List (String × ConfigValue)) (k : String) :
    Option (Option ℚ) :=
  match d.lookup k with
  | some (.q v) => some (some v)
  | some .null => some none
  | _ => none

/-- Fetch an optional string field from a record (None means absent). -/
def lookupOptS (d : List (String × ConfigValue)) (k : String) :
    Option (Option String) :=
  match d.lookup k with
  | some (.s v) => some (some v)
  | some .null => some none
  | _ => none

/-- Modelled from the spec: the deserializer for the executor
configuration record is not part of the two source files under src; the
serialization surface in the spec requires the record to round-trip
losslessly through serialize then deserialize.  This reads back each of
the nine fields, requiring the type tag of the constant-velocity
variant. -/
def from_dict (d : List (String × ConfigValue)) : Option ExecutorConfig :=
  match d.lookup "type", lookupQ d "dt", lookupQ d "linear_velocity",
      lookupOptQ d "max_angular_velocity",
      lookupB d "validate_during_execution", lookupQ d "validation_dt",
      lookupQ d "validation_step_dist", lookupOptS d "lidar_sensor_name",
      lookupQ d "lidar_sensor_measurement_dt" with
  | some (.s "constant_velocity"), some dtv, some lv, some mav, some vde,
      some vdt, some vsd, some lsn, some lsm =>
    some
      { dt := dtv
        linear_velocity := lv
        max_angular_velocity := mav
        validate_during_execution := vde
        validation_dt := vdt
        validation_step_dist := vsd
        lidar_sensor_name := lsn
        lidar_sensor_measurement_dt := lsm }
  | _, _, _, _, _, _, _, _, _ => none

/-! ## Helper lemmas -/

/-- A filterMap whose function is an if-then-some-else-none is a filter
followed by a map. -/
lemma filterMap_ite_eq_map_filter {α β : Type} (p : α → Prop)
    [DecidablePred p] (g : α → β) (l : List α) :
    l.filterMap (fun x => if p x then some (g x) else none) =
      (l.filter fun x => decide (p x)).map g := by
  induction l with
  | nil => rfl
  | cons a l ih =>
    by_cases h : p a <;>
      simp [List.filterMap_cons, List.filter_cons, h, ih]

/-- The per-point hallway scan returns the first hallway that contains
the point and whose ground truth disagrees with the recorded set, applies
its single update, and raises the updated flag; with no such hallway it
leaves both unchanged. -/
lemma scanPoint_eq_find (contains : Hallway → ℚ × ℚ → Bool) (pt : ℚ × ℚ)
    (hallways : List Hallway) (recorded : List Hallway) (updated : Bool) :
    scanPoint contains pt hallways recorded updated =
      match hallways.find?
          (fun h => contains h pt && stateDisagrees h recorded) with
      | none => (recorded, updated)
      | some h =>
        (if h.is_open then recorded.erase h else h :: recorded, true) := by
  induction hallways with
  | nil => rfl
  | cons h rest ih =>
    by_cases hc : contains h pt
    · by_cases ho : h.is_open
      · by_cases hm : h ∈ recorded
        · simp [scanPoint, List.find?_cons, hc, ho, hm, stateDisagrees]
        · simp [scanPoint, List.find?_cons, hc, ho, hm, stateDisagrees, ih]
      · by_cases hm : h ∈ recorded
        · simp [scanPoint, List.find?_cons, hc, ho, hm, stateDisagrees, ih]
        · simp [scanPoint, List.find?_cons, hc, ho, hm, stateDisagrees]
    · simp [scanPoint, List.find?_cons, hc, ih]

/-- The waypoint index search stays inside the timestamp list. -/
lemma findWaypointIdx_lt_length (l : List ℚ) (c : ℚ) (h : l ≠ []) :
    findWaypointIdx l c < l.length := by
  induction l with
  | nil => exact absurd rfl h
  | cons a l ih =>
    cases l with
    | nil => simp [findWaypointIdx]
    | cons b m =>
      simp only [findWaypointIdx]
      split
      · simp
      · have hlt := ih (by simp)
        simp only [List.length_cons] at hlt ⊢
        omega

/-- The waypoint index search never passes an index whose timestamp has
already reached the current trajectory time. -/
lemma findWaypointIdx_min (l : List ℚ) (c : ℚ) :
    ∀ j, j < l.length → c ≤ l.getD j 0 → findWaypointIdx l c ≤ j := by
  induction l with
  | nil => intro j hj _; simp at hj
  | cons a l ih =>
    intro j hj hc
    cases l with
    | nil => simp [findWaypointIdx]
    | cons b m =>
      simp only [findWaypointIdx]
      split
      · exact Nat.zero_le j
      · rename_i hna
        cases j with
        | zero => simp only [List.getD_cons_zero] at hc; exact absurd hc hna
        | succ j =>
          have := ih j (by simpa using hj) (by simpa using hc)
          omega

/-- When some timestamp has reached the current trajectory time, the
timestamp at the found index has as well. -/
lemma findWaypointIdx_achieves (l : List ℚ) (c : ℚ)
    (h : ∃ j, j < l.length ∧ c ≤ l.getD j 0) :
    c ≤ l.getD (findWaypointIdx l c) 0 := by
  induction l with
  | nil => obtain ⟨j, hj, _⟩ := h; simp at hj
  | cons a l ih =>
    obtain ⟨j, hj, hc⟩ := h
    cases l with
    | nil =>
      have : j = 0 := by simpa using Nat.lt_one_iff.mp (by simpa using hj)
      subst this
      simpa [findWaypointIdx] using hc
    | cons b m =>
      simp only [findWaypointIdx]
      split
      · simpa using ‹c ≤ a›
      · rename_i hna
        cases j with
        | zero => simp only [List.getD_cons_zero] at hc; exact absurd hc hna
        | succ j =>
          have := ih ⟨j, by simpa using hj, by simpa using hc⟩
          simpa using this

/-! ## Claim theorems -/

/-- Claim C8: for every executor instance, the serialized configuration
record contains exactly the nine documented fields, each equal to the
corresponding configuration value, the type field is the
constant-velocity tag, and the record round-trips losslessly through
serialize then deserialize. -/
theorem C8_config_record_round_trip (cfg : ExecutorConfig) :
    (to_dict cfg).map Prod.fst =
      ["type", "dt", "linear_velocity", "max_angular_velocity",
       "validate_during_execution", "validation_dt", "validation_step_dist",
       "lidar_sensor_name", "lidar_sensor_measurement_dt"]
    ∧ (to_dict cfg).lookup "type" = some (.s "constant_velocity")
    ∧ (to_dict cfg).lookup "dt" = some (.q cfg.dt)
    ∧ (to_dict cfg).lookup "linear_velocity" = some (.q cfg.linear_velocity)
    ∧ (to_dict cfg).lookup "max_angular_velocity" =
        some (.ofOptQ cfg.max_angular_velocity)
    ∧ (to_dict cfg).lookup "validate_during_execution" =
        some (.b cfg.validate_during_execution)
    ∧ (to_dict cfg).lookup "validation_dt" = some (.q cfg.validation_dt)
    ∧ (to_dict cfg).lookup "validation_step_dist" =
        some (.q cfg.validation_step_dist)
    ∧ (to_dict cfg).lookup "lidar_sensor_name" =
        some (.ofOptS cfg.lidar_sensor_name)
    ∧ (to_dict cfg).lookup "lidar_sensor_measurement_dt" =
        some (.q cfg.lidar_sensor_measurement_dt)
    ∧ from_dict (to_dict cfg) = some cfg := by
  obtain ⟨dtv, lv, mav, vde, vdt, vsd, lsn, lsm⟩ := cfg
  cases mav <;> cases lsn <;>
    simp [to_dict, from_dict, lookupQ, lookupB, lookupOptQ, lookupOptS,
      List.lookup, ConfigValue.ofOptQ, ConfigValue.ofOptS]

/-- Claim C4: in every hallway-tracker iteration, exactly the beams
strictly inside the maximum range are converted to world-frame points
from the current pose and yaw; for each point the scan updates the first
hallway containing it whose ground truth disagrees with the recorded
set (adding a closed unrecorded hallway, removing an open recorded one),
raising the updated flag on either update and stopping at that first
state change, so at most one hallway is updated per point; the iteration
folds this scan over the converted points. -/
theorem C4_tracker_first_match (measured_angles measured_lengths : List ℚ)
    (max_range_m : ℚ) (cur_pose : Pose) (rcos rsin : ℚ → ℚ)
    (hallways : List Hallway) (contains : Hallway → ℚ × ℚ → Bool)
    (pt : ℚ × ℚ) (recorded : List Hallway) (updated : Bool) :
    lidar_points measured_angles measured_lengths max_range_m cur_pose rcos
        rsin =
      ((measured_angles.zip measured_lengths).filter fun al =>
          decide (al.2 < max_range_m)).map
        (fun al =>
          (cur_pose.x + al.2 * rcos (al.1 + cur_pose.yaw),
           cur_pose.y + al.2 * rsin (al.1 + cur_pose.yaw)))
    ∧ scanPoint contains pt hallways recorded updated =
        (match hallways.find?
            (fun h => contains h pt && stateDisagrees h recorded) with
         | none => (recorded, updated)
         | some h =>
           (if h.is_open then recorded.erase h else h :: recorded, true))
    ∧ detect_iteration measured_angles measured_lengths max_range_m cur_pose
        rcos rsin hallways contains recorded updated =
        (lidar_points measured_angles measured_lengths max_range_m cur_pose
            rcos rsin).foldl
          (fun acc p2 => scanPoint contains p2 hallways acc.1 acc.2)
          (recorded, updated) := by
  refine ⟨?_, scanPoint_eq_find contains pt hallways recorded updated, rfl⟩
  exact filterMap_ite_eq_map_filter _ _ _

/-- Claim C3: every validator iteration selects the earliest trajectory
sample index whose timestamp has reached current_traj_time (the found
index is minimal, and qualifies whenever any index does); if that index
is the final sample the iteration exits the loop with no effect;
otherwise the candidate remaining path is the current pose followed by
the trajectory poses from that index onward, the collision check runs
only when that candidate has more than two poses, and the sole
externally visible effect is raising the abort flag exactly when the
check ran and reported a collision. -/
theorem C3_validator_earliest_index (traj : Trajectory) (cur_pose : Pose)
    (cur_time : ℚ) (world_present : Bool) (validation_step_dist : ℚ)
    (fog_hallways : Bool) (recorded : List Hallway)
    (is_path_collision_free : Path → ℚ → Bool → List Hallway → Bool)
    (out : ValidatorIterOut)
    (hout : out = validate_iteration traj cur_pose cur_time world_present
      validation_step_dist fog_hallways recorded is_path_collision_free) :
    (∀ j, j < traj.t_pts.length → cur_time ≤ traj.t_pts.getD j 0 →
        findWaypointIdx traj.t_pts cur_time ≤ j)
    ∧ ((∃ j, j < traj.t_pts.length ∧ cur_time ≤ traj.t_pts.getD j 0) →
        cur_time ≤ traj.t_pts.getD (findWaypointIdx traj.t_pts cur_time) 0)
    ∧ (out.exitsLoop = true ↔
        findWaypointIdx traj.t_pts cur_time = traj.num_points - 1)
    ∧ (out.exitsLoop = true → out.checked = false ∧ out.abortRaised = false)
    ∧ (out.exitsLoop = false →
        out.candidate =
          cur_pose :: traj.poses.drop (findWaypointIdx traj.t_pts cur_time))
    ∧ (out.checked = true → 2 < out.candidate.length ∧ world_present = true)
    ∧ (out.abortRaised = true ↔
        out.checked = true ∧
          is_path_collision_free { poses := out.candidate }
            validation_step_dist fog_hallways recorded = false) := by
  subst hout
  refine ⟨findWaypointIdx_min traj.t_pts cur_time,
    fun h => findWaypointIdx_achieves traj.t_pts cur_time h, ?_⟩
  simp only [validate_iteration]
  split_ifs with h1 h2 h3 h4 <;> simp_all

/-- The main loop keeps the battery level nonnegative. -/
lemma execLoop_battery_nonneg (env : Env) (u : ℚ) (vd vt fog lt : Bool) :
    ∀ (samples : List (ℚ × Pose)) (i : Nat) (prev : Pose) (st : ExecState)
      (robot : Robot), 0 ≤ robot.battery_level →
      0 ≤ (execLoop env u vd vt fog lt samples i prev st
        robot).robot.battery_level := by
  intro samples
  induction samples with
  | nil => intro i prev st robot h; simpa [execLoop] using h
  | cons sp rest ih =>
    intro i prev st robot h
    obtain ⟨t, p⟩ := sp
    simp only [execLoop]
    split
    · simpa using h
    · split
      · simpa using h
      · split
        · simp
        · rename_i hb
          exact ih (i + 1) p _ _ (not_le.mp hb).le

/-- With nonnegative drain rate and distances, the main loop never
increases the battery level. -/
lemma execLoop_battery_monotone (env : Env) (u : ℚ) (vd vt fog lt : Bool)
    (hu : 0 ≤ u) (hd : ∀ p q, 0 ≤ env.dist p q) :
    ∀ (samples : List (ℚ × Pose)) (i : Nat) (prev : Pose) (st : ExecState)
      (robot : Robot), 0 ≤ robot.battery_level →
      (execLoop env u vd vt fog lt samples i prev st
        robot).robot.battery_level ≤ robot.battery_level := by
  intro samples
  induction samples with
  | nil => intro i prev st robot _; simp [execLoop]
  | cons sp rest ih =>
    intro i prev st robot h
    obtain ⟨t, p⟩ := sp
    simp only [execLoop]
    split
    · simp
    · split
      · simp
      · split
        · simpa using h
        · rename_i hb
          have hstep : robot.battery_level - u * env.dist p prev ≤
              robot.battery_level := by
            have := mul_nonneg hu (hd p prev)
            linarith
          exact le_trans (ih (i + 1) p _ _ (not_le.mp hb).le) hstep

/-- If the battery starts positive and ends at zero, the loop exited on
the battery-depletion branch with an execution failure. -/
lemma execLoop_battery_zero_failure (env : Env) (u : ℚ)
    (vd vt fog lt : Bool) :
    ∀ (samples : List (ℚ × Pose)) (i : Nat) (prev : Pose) (st : ExecState)
      (robot : Robot), 0 < robot.battery_level →
      (execLoop env u vd vt fog lt samples i prev st
        robot).robot.battery_level = 0 →
      (execLoop env u vd vt fog lt samples i prev st robot).status =
        .EXECUTION_FAILURE ∧
      (execLoop env u vd vt fog lt samples i prev st robot).exitKind =
        .depleted := by
  intro samples
  induction samples with
  | nil =>
    intro i prev st robot h h0
    simp only [execLoop] at h0
    exact absurd h0 (ne_of_gt h)
  | cons sp rest ih =>
    intro i prev st robot h h0
    obtain ⟨t, p⟩ := sp
    simp only [execLoop] at h0 ⊢
    split at h0
    · simp only at h0
      exact absurd h0 (ne_of_gt h)
    · split at h0
      · simp only at h0
        exact absurd h0 (ne_of_gt h)
      · split at h0
        · rename_i h1 h2 h3
          rw [if_neg h1, if_neg h2, if_pos h3]
          simp
        · rename_i h1 h2 h3
          rw [if_neg h1, if_neg h2, if_neg h3]
          exact ih (i + 1) p _ _ (by simpa using not_le.mp h3) h0

/-- A tick whose flag checks both fail drains the battery by the drain
rate times the distance from the previous sample, clamped at zero. -/
lemma execLoop_single_tick_drain (env : Env) (u : ℚ) (vd vt fog lt : Bool)
    (t : ℚ) (p : Pose) (i : Nat) (prev : Pose) (st : ExecState)
    (robot : Robot) (hab : st.abort_execution = false)
    (hcn : st.cancel_execution = false) (hoa : env.abortSet i = false)
    (hoc : env.cancelSet i = false) :
    (execLoop env u vd vt fog lt [(t, p)] i prev st
        robot).robot.battery_level =
      max 0 (robot.battery_level - u * env.dist p prev) := by
  rcases le_or_lt (robot.battery_level - u * env.dist p prev) 0 with hb | hb
  · simp [execLoop, hab, hcn, hoa, hoc, hb, max_eq_left hb]
  · simp [execLoop, hab, hcn, hoa, hoc, not_le.mpr hb,
      max_eq_right hb.le]

/-- A depleted exit leaves the battery clamped at exactly zero and
reports an execution failure. -/
lemma execLoop_depleted (env : Env) (u : ℚ) (vd vt fog lt : Bool) :
    ∀ (samples : List (ℚ × Pose)) (i : Nat) (prev : Pose) (st : ExecState)
      (robot : Robot),
      (execLoop env u vd vt fog lt samples i prev st robot).exitKind =
        .depleted →
      (execLoop env u vd vt fog lt samples i prev st
          robot).robot.battery_level = 0 ∧
      (execLoop env u vd vt fog lt samples i prev st robot).status =
        .EXECUTION_FAILURE := by
  intro samples
  induction samples with
  | nil => intro i prev st robot hk; simp [execLoop] at hk
  | cons sp rest ih =>
    intro i prev st robot hk
    obtain ⟨t, p⟩ := sp
    simp only [execLoop] at hk ⊢
    split at hk
    · simp only at hk
      exact absurd hk (by decide)
    · split at hk
      · simp only at hk
        exact absurd hk (by decide)
      · split at hk
        · rename_i h1 h2 h3
          rw [if_neg h1, if_neg h2, if_pos h3]
          simp
        · rename_i h1 h2 h3
          rw [if_neg h1, if_neg h2, if_neg h3]
          exact ih (i + 1) p _ _ hk

/-- Claim C2: at every drain tick of the main loop the battery decreases
by the drain rate times the linear distance from the previous
interpolated sample, clamped at zero; the battery is never negative
after any tick; with nonnegative drain rate and distances it decreases
monotonically along the run; and when it reaches zero the run stops with
an execution failure and the battery clamped at exactly zero. -/
theorem C2_battery_drain (env : Env) (u : ℚ) (vd vt fog lt : Bool)
    (samples : List (ℚ × Pose)) (i : Nat) (prev : Pose) (st : ExecState)
    (robot : Robot) :
    (0 ≤ robot.battery_level →
      0 ≤ (execLoop env u vd vt fog lt samples i prev st
        robot).robot.battery_level)
    ∧ (0 ≤ robot.battery_level → 0 ≤ u → (∀ p q, 0 ≤ env.dist p q) →
      (execLoop env u vd vt fog lt samples i prev st
        robot).robot.battery_level ≤ robot.battery_level)
    ∧ (0 < robot.battery_level →
      (execLoop env u vd vt fog lt samples i prev st
        robot).robot.battery_level = 0 →
      (execLoop env u vd vt fog lt samples i prev st robot).status =
        .EXECUTION_FAILURE)
    ∧ ((execLoop env u vd vt fog lt samples i prev st robot).exitKind =
        .depleted →
      (execLoop env u vd vt fog lt samples i prev st
          robot).robot.battery_level = 0 ∧
      (execLoop env u vd vt fog lt samples i prev st robot).status =
        .EXECUTION_FAILURE)
    ∧ (∀ t p, st.abort_execution = false → st.cancel_execution = false →
      env.abortSet i = false → env.cancelSet i = false →
      (execLoop env u vd vt fog lt [(t, p)] i prev st
          robot).robot.battery_level =
        max 0 (robot.battery_level - u * env.dist p prev)) := by
  refine ⟨fun h => execLoop_battery_nonneg env u vd vt fog lt samples i prev
      st robot h,
    fun h hu hd => execLoop_battery_monotone env u vd vt fog lt hu hd
      samples i prev st robot h,
    fun h h0 => (execLoop_battery_zero_failure env u vd vt fog lt samples i
      prev st robot h h0).1,
    execLoop_depleted env u vd vt fog lt samples i prev st robot,
    fun t p hab hcn hoa hoc => execLoop_single_tick_drain env u vd vt fog lt
      t p i prev st robot hab hcn hoa hoc⟩

/-- A concrete pose used by the witnesses. -/
def pose0 : Pose := { x := 0, y := 0, yaw := 0 }

/-- A quiet environment: no background events, unit distances. -/
def env0 : Env :=
  { abortSet := fun _ => false
    cancelSet := fun _ => false
    hallwaySet := fun _ => false
    dist := fun _ _ => 1 }

/-- A concrete robot used by the witnesses. -/
def robot0 : Robot :=
  { pose := pose0
    battery_level := 3
    manipulated_object := some pose0
    world_present := true
    fog_hallways := true
    path_planner := .prm
    planner_reset_count := 0
    last_nav_result := none }

/-- A four-sample interpolated trajectory used by the witnesses. -/
def samples0 : List (ℚ × Pose) :=
  [(0, pose0), (1, pose0), (2, pose0), (3, pose0)]

/-- Witness for C2 on a concrete run that depletes a battery of three
units at unit drain over unit-distance steps. -/
theorem C2_battery_drain_witness :
    0 ≤ (execLoop env0 1 false false false false samples0 0 pose0
      reset_state robot0).robot.battery_level
    ∧ (execLoop env0 1 false false false false samples0 0 pose0
        reset_state robot0).robot.battery_level ≤ robot0.battery_level
    ∧ (execLoop env0 1 false false false false samples0 0 pose0
        reset_state robot0).status = .EXECUTION_FAILURE
    ∧ (execLoop env0 1 false false false false samples0 0 pose0
        reset_state robot0).robot.battery_level = 0
    ∧ (execLoop env0 1 false false false false [((0 : ℚ), pose0)] 0 pose0
        reset_state robot0).robot.battery_level =
      max 0 (robot0.battery_level - 1 * env0.dist pose0 pose0) := by
  obtain ⟨h1, h2, h3, h4, h5⟩ :=
    C2_battery_drain env0 1 false false false false samples0 0 pose0
      reset_state robot0
  exact ⟨h1 (by norm_num [robot0]),
    h2 (by norm_num [robot0]) (by norm_num) (fun p q => by norm_num [env0]),
    h3 (by norm_num [robot0])
      (by norm_num [execLoop, samples0, env0, robot0, reset_state, pose0]),
    (h4 (by norm_num [execLoop, samples0, env0, robot0, reset_state,
      pose0])).1,
    h5 0 pose0 rfl rfl rfl rfl⟩

/-- An environment whose validator raises the abort flag from tick zero
on. -/
def envA : Env :=
  { abortSet := fun _ => true
    cancelSet := fun _ => false
    hallwaySet := fun _ => false
    dist := fun _ _ => 1 }

/-- An environment whose external caller requests cancellation from tick
zero on. -/
def envC : Env :=
  { abortSet := fun _ => false
    cancelSet := fun _ => true
    hallwaySet := fun _ => false
    dist := fun _ _ => 1 }

/-- Claim C9: at the tick where the abort or cancel flag is observed,
the robot pose (and any manipulated object pose) has already been pushed
to that tick and current_traj_time already updated, while the battery
drain of that tick is never applied, because pose and time writes come
before the flag checks and the battery update after them. -/
theorem C9_pose_updated_before_flag_checks (env : Env) (u : ℚ)
    (vd vt fog lt : Bool) (t : ℚ) (p : Pose) (rest : List (ℚ × Pose))
    (i : Nat) (prev : Pose) (st : ExecState) (robot : Robot)
    (h : (st.abort_execution || env.abortSet i) = true ∨
      (st.cancel_execution || env.cancelSet i) = true) :
    (execLoop env u vd vt fog lt ((t, p) :: rest) i prev st
        robot).exitTick = some i
    ∧ (execLoop env u vd vt fog lt ((t, p) :: rest) i prev st
        robot).robot.pose = p
    ∧ (execLoop env u vd vt fog lt ((t, p) :: rest) i prev st
        robot).robot.manipulated_object =
        robot.manipulated_object.map (fun _ => p)
    ∧ (execLoop env u vd vt fog lt ((t, p) :: rest) i prev st
        robot).state.current_traj_time = t
    ∧ (execLoop env u vd vt fog lt ((t, p) :: rest) i prev st
        robot).robot.battery_level = robot.battery_level := by
  by_cases ha : (st.abort_execution || env.abortSet i) = true
  · simp [execLoop, ha]
  · have hc : (st.cancel_execution || env.cancelSet i) = true :=
      h.resolve_left ha
    simp [execLoop, ha, hc]

/-- Witness for C9 at a concrete aborted tick. -/
theorem C9_pose_updated_before_flag_checks_witness :
    (execLoop envA 1 false false false false [((5 : ℚ), pose0)] 0 pose0
        reset_state robot0).exitTick = some 0
    ∧ (execLoop envA 1 false false false false [((5 : ℚ), pose0)] 0 pose0
        reset_state robot0).robot.pose = pose0
    ∧ (execLoop envA 1 false false false false [((5 : ℚ), pose0)] 0 pose0
        reset_state robot0).robot.manipulated_object =
        robot0.manipulated_object.map (fun _ => pose0)
    ∧ (execLoop envA 1 false false false false [((5 : ℚ), pose0)] 0 pose0
        reset_state robot0).state.current_traj_time = 5
    ∧ (execLoop envA 1 false false false false [((5 : ℚ), pose0)] 0 pose0
        reset_state robot0).robot.battery_level = robot0.battery_level :=
  C9_pose_updated_before_flag_checks envA 1 false false false false 5 pose0
    [] 0 pose0 reset_state robot0 (Or.inl (by decide))

/-- Claim C5: when the cancel flag is observed at a tick at which the
abort flag is not set, the loop stops with status CANCELED, the cancel
flag is cleared, and no pose beyond that tick is ever pushed. -/
theorem C5_cancel_clears_flag (env : Env) (u : ℚ) (vd vt fog lt : Bool)
    (t : ℚ) (p : Pose) (rest : List (ℚ × Pose)) (i : Nat) (prev : Pose)
    (st : ExecState) (robot : Robot)
    (ha : (st.abort_execution || env.abortSet i) = false)
    (hc : (st.cancel_execution || env.cancelSet i) = true) :
    (execLoop env u vd vt fog lt ((t, p) :: rest) i prev st robot).status =
      .CANCELED
    ∧ (execLoop env u vd vt fog lt ((t, p) :: rest) i prev st
        robot).state.cancel_execution = false
    ∧ (execLoop env u vd vt fog lt ((t, p) :: rest) i prev st
        robot).robot.pose = p
    ∧ (execLoop env u vd vt fog lt ((t, p) :: rest) i prev st
        robot).exitTick = some i
    ∧ (execLoop env u vd vt fog lt ((t, p) :: rest) i prev st
        robot).exitKind = .canceled := by
  simp [execLoop, ha, hc]

/-- Witness for C5 at a concrete cancelled tick. -/
theorem C5_cancel_clears_flag_witness :
    (execLoop envC 1 false false false false [((5 : ℚ), pose0)] 0 pose0
        reset_state robot0).status = .CANCELED
    ∧ (execLoop envC 1 false false false false [((5 : ℚ), pose0)] 0 pose0
        reset_state robot0).state.cancel_execution = false
    ∧ (execLoop envC 1 false false false false [((5 : ℚ), pose0)] 0 pose0
        reset_state robot0).robot.pose = pose0
    ∧ (execLoop envC 1 false false false false [((5 : ℚ), pose0)] 0 pose0
        reset_state robot0).exitTick = some 0
    ∧ (execLoop envC 1 false false false false [((5 : ℚ), pose0)] 0 pose0
        reset_state robot0).exitKind = .canceled :=
  C5_cancel_clears_flag envC 1 false false false false 5 pose0 [] 0 pose0
    reset_state robot0 (by decide) (by decide)

/-- An aborted exit of the main loop reports an execution failure, has
the abort flag set in the loop-exit state, and joins exactly the
background threads the abort branch joins: the validator when validation
is enabled and its timer holds a thread, the lidar tracker when fog mode
is on and its timer holds a thread. -/
lemma execLoop_aborted (env : Env) (u : ℚ) (vd vt fog lt : Bool) :
    ∀ (samples : List (ℚ × Pose)) (i : Nat) (prev : Pose) (st : ExecState)
      (robot : Robot),
      (execLoop env u vd vt fog lt samples i prev st robot).exitKind =
        .aborted →
      (execLoop env u vd vt fog lt samples i prev st robot).status =
        .EXECUTION_FAILURE
      ∧ (execLoop env u vd vt fog lt samples i prev st
          robot).state.abort_execution = true
      ∧ (execLoop env u vd vt fog lt samples i prev st
          robot).joinedValidator = (vd && vt)
      ∧ (execLoop env u vd vt fog lt samples i prev st robot).joinedLidar =
          (fog && lt) := by
  intro samples
  induction samples with
  | nil => intro i prev st robot hk; simp [execLoop] at hk
  | cons sp rest ih =>
    intro i prev st robot hk
    obtain ⟨t, p⟩ := sp
    simp only [execLoop] at hk ⊢
    split at hk
    · rename_i h1
      rw [if_pos h1]
      exact ⟨rfl, h1, rfl, rfl⟩
    · split at hk
      · simp only at hk
        exact absurd hk (by decide)
      · split at hk
        · simp only at hk
          exact absurd hk (by decide)
        · rename_i h1 h2 h3
          rw [if_neg h1, if_neg h2, if_neg h3]
          exact ih (i + 1) p _ _ hk

/-- The main loop never touches the planner of the robot, nor the
planner reset counter: no planner invalidation happens mid-loop. -/
lemma execLoop_planner (env : Env) (u : ℚ) (vd vt fog lt : Bool) :
    ∀ (samples : List (ℚ × Pose)) (i : Nat) (prev : Pose) (st : ExecState)
      (robot : Robot),
      (execLoop env u vd vt fog lt samples i prev st
        robot).robot.path_planner = robot.path_planner
      ∧ (execLoop env u vd vt fog lt samples i prev st
          robot).robot.planner_reset_count = robot.planner_reset_count := by
  intro samples
  induction samples with
  | nil => intro i prev st robot; exact ⟨rfl, rfl⟩
  | cons sp rest ih =>
    intro i prev st robot
    obtain ⟨t, p⟩ := sp
    simp only [execLoop]
    split
    · exact ⟨rfl, rfl⟩
    · split
      · exact ⟨rfl, rfl⟩
      · split
        · exact ⟨rfl, rfl⟩
        · exact ih (i + 1) p _ _

/-- When no cancel request ever lands at a loop tick and the cancel flag
starts clear, the loop cannot exit with a CANCELED status. -/
lemma execLoop_no_cancel (env : Env) (u : ℚ) (vd vt fog lt : Bool)
    (hc : ∀ j, env.cancelSet j = false) :
    ∀ (samples : List (ℚ × Pose)) (i : Nat) (prev : Pose) (st : ExecState)
      (robot : Robot), st.cancel_execution = false →
      (execLoop env u vd vt fog lt samples i prev st robot).status ≠
        .CANCELED := by
  intro samples
  induction samples with
  | nil => intro i prev st robot _; simp [execLoop]
  | cons sp rest ih =>
    intro i prev st robot hst
    obtain ⟨t, p⟩ := sp
    simp only [execLoop]
    split
    · simp
    · split
      · rename_i h1 h2
        rw [hst, hc i] at h2
        simp at h2
      · split
        · simp
        · exact ih (i + 1) p _ _ (by simp [hst, hc i])

/-- Claim C1: whenever the validator raises the abort flag and the main
loop observes it, the loop exits with result status EXECUTION_FAILURE,
the abort flag was true in the loop-exit state before the final reset,
and every background loop that was started by this call (the validator
when started, the lidar tracker when started) is joined before execute
returns. -/
theorem C1_abort_failure_and_joins (cfg : ExecutorConfig) (env : Env)
    (gen : Path → ℚ → Option ℚ → Option Trajectory)
    (interp : Trajectory → ℚ → Option Trajectory)
    (robotOpt : Option Robot) (vt0 lt0 : Bool) (traj0 : Option Trajectory)
    (st0 : ExecState) (path : Path) (u : ℚ) (lh lc : Bool)
    (hk : (execute cfg env gen interp robotOpt vt0 lt0 traj0 st0 path u lh
      lc).exitKind = some .aborted) :
    (execute cfg env gen interp robotOpt vt0 lt0 traj0 st0 path u lh
      lc).result.status = .EXECUTION_FAILURE
    ∧ (execute cfg env gen interp robotOpt vt0 lt0 traj0 st0 path u lh
        lc).loopState.abort_execution = true
    ∧ ((execute cfg env gen interp robotOpt vt0 lt0 traj0 st0 path u lh
        lc).validatorStarted = true →
      (execute cfg env gen interp robotOpt vt0 lt0 traj0 st0 path u lh
        lc).joinedValidator = true)
    ∧ ((execute cfg env gen interp robotOpt vt0 lt0 traj0 st0 path u lh
        lc).lidarStarted = true →
      (execute cfg env gen interp robotOpt vt0 lt0 traj0 st0 path u lh
        lc).joinedLidar = true) := by
  cases robotOpt with
  | none => simp [execute] at hk
  | some robot =>
    by_cases hlen : path.num_poses < 2
    · simp [execute, hlen] at hk
    · cases hgen : gen path cfg.linear_velocity cfg.max_angular_velocity with
      | none => simp [execute, hlen, hgen] at hk
      | some traj =>
        cases hint : interp traj cfg.dt with
        | none => simp [execute, hlen, hgen, hint] at hk
        | some ti =>
          simp [execute, hlen, hgen, hint] at hk ⊢
          obtain ⟨hs, hab, hjv, hjl⟩ :=
            execLoop_aborted _ _ _ _ _ _ _ _ _ _ _ hk
          refine ⟨hs, hab, ?_, ?_⟩
          · intro h
            rw [hjv]
            simp_all
          · intro h
            rw [hjl]
            simp_all

/-- A concrete executor configuration with validation enabled. -/
def cfg0 : ExecutorConfig :=
  { dt := 1 / 10
    linear_velocity := 1
    max_angular_velocity := none
    validate_during_execution := true
    validation_dt := 1 / 2
    validation_step_dist := 1 / 40
    lidar_sensor_name := some "lidar"
    lidar_sensor_measurement_dt := 1 / 4 }

/-- A concrete two-point trajectory. -/
def traj2 : Trajectory := { t_pts := [0, 1], poses := [pose0, pose0] }

/-- A concrete trajectory generator that always succeeds. -/
def gen2 : Path → ℚ → Option ℚ → Option Trajectory := fun _ _ _ => some traj2

/-- A concrete interpolator that returns its input. -/
def interp2 : Trajectory → ℚ → Option Trajectory := fun tr _ => some tr

/-- A concrete one-pose path (fails the waypoint precondition). -/
def path1 : Path := { poses := [pose0] }

/-- A concrete two-pose path (passes the waypoint precondition). -/
def path2 : Path := { poses := [pose0, pose0] }

/-- Witness for C1 on a concrete run whose validator raises the abort
flag at the first tick. -/
theorem C1_abort_failure_and_joins_witness :
    (execute cfg0 envA gen2 interp2 (some robot0) false false none
      reset_state path2 0 false false).result.status = .EXECUTION_FAILURE
    ∧ (execute cfg0 envA gen2 interp2 (some robot0) false false none
        reset_state path2 0 false false).loopState.abort_execution = true
    ∧ (execute cfg0 envA gen2 interp2 (some robot0) false false none
        reset_state path2 0 false false).joinedValidator = true
    ∧ (execute cfg0 envA gen2 interp2 (some robot0) false false none
        reset_state path2 0 false false).joinedLidar = true := by
  have hk : (execute cfg0 envA gen2 interp2 (some robot0) false false none
      reset_state path2 0 false false).exitKind = some .aborted := by
    simp [execute, execLoop, cfg0, envA, robot0, gen2, interp2, traj2,
      path2, Path.num_poses, reset_state]
  have h := C1_abort_failure_and_joins cfg0 envA gen2 interp2 (some robot0)
    false false none reset_state path2 0 false false hk
  refine ⟨h.1, h.2.1, h.2.2.1 ?_, h.2.2.2 ?_⟩
  · simp [execute, cfg0, robot0, gen2, interp2, path2, Path.num_poses]
  · simp [execute, cfg0, robot0, gen2, interp2, path2, Path.num_poses]

/-- Claim C6: with no robot attached, or a path of fewer than two poses,
or a failing trajectory generation or interpolation, execute returns
PRECONDITION_FAILURE immediately: the execution state is untouched, the
robot (pose, battery, everything) is unchanged, no background thread is
started or joined, the main loop never runs, and the planner reset hook
is not invoked. -/
theorem C6_precondition_failure_no_side_effects (cfg : ExecutorConfig)
    (env : Env) (gen : Path → ℚ → Option ℚ → Option Trajectory)
    (interp : Trajectory → ℚ → Option Trajectory)
    (robotOpt : Option Robot) (vt0 lt0 : Bool) (traj0 : Option Trajectory)
    (st0 : ExecState) (path : Path) (u : ℚ) (lh lc : Bool)
    (h : robotOpt = none ∨ path.num_poses < 2 ∨
      gen path cfg.linear_velocity cfg.max_angular_velocity = none ∨
      ∃ traj, gen path cfg.linear_velocity cfg.max_angular_velocity =
        some traj ∧ interp traj cfg.dt = none) :
    (execute cfg env gen interp robotOpt vt0 lt0 traj0 st0 path u lh
      lc).result.status = .PRECONDITION_FAILURE
    ∧ (execute cfg env gen interp robotOpt vt0 lt0 traj0 st0 path u lh
        lc).state = st0
    ∧ (execute cfg env gen interp robotOpt vt0 lt0 traj0 st0 path u lh
        lc).robot = robotOpt
    ∧ (execute cfg env gen interp robotOpt vt0 lt0 traj0 st0 path u lh
        lc).validatorStarted = false
    ∧ (execute cfg env gen interp robotOpt vt0 lt0 traj0 st0 path u lh
        lc).lidarStarted = false
    ∧ (execute cfg env gen interp robotOpt vt0 lt0 traj0 st0 path u lh
        lc).joinedValidator = false
    ∧ (execute cfg env gen interp robotOpt vt0 lt0 traj0 st0 path u lh
        lc).joinedLidar = false
    ∧ (execute cfg env gen interp robotOpt vt0 lt0 traj0 st0 path u lh
        lc).exitKind = none
    ∧ (execute cfg env gen interp robotOpt vt0 lt0 traj0 st0 path u lh
        lc).plannerResetInvoked = false := by
  cases robotOpt with
  | none => simp [execute]
  | some robot =>
    rcases h with h | h | h | ⟨traj, hgen, hint⟩
    · exact absurd h (by simp)
    · simp [execute, h]
    · by_cases hlen : path.num_poses < 2
      · simp [execute, hlen]
      · simp [execute, hlen, h]
    · by_cases hlen : path.num_poses < 2
      · simp [execute, hlen]
      · simp [execute, hlen, hgen, hint]

/-- Witness for C6 on a one-pose path. -/
theorem C6_precondition_failure_no_side_effects_witness :
    (execute cfg0 env0 gen2 interp2 (some robot0) false false none
      reset_state path1 1 false false).result.status =
      .PRECONDITION_FAILURE
    ∧ (execute cfg0 env0 gen2 interp2 (some robot0) false false none
        reset_state path1 1 false false).state = reset_state
    ∧ (execute cfg0 env0 gen2 interp2 (some robot0) false false none
        reset_state path1 1 false false).robot = some robot0
    ∧ (execute cfg0 env0 gen2 interp2 (some robot0) false false none
        reset_state path1 1 false false).validatorStarted = false
    ∧ (execute cfg0 env0 gen2 interp2 (some robot0) false false none
        reset_state path1 1 false false).exitKind = none := by
  have h := C6_precondition_failure_no_side_effects cfg0 env0 gen2 interp2
    (some robot0) false false none reset_state path1 1 false false
    (Or.inr (Or.inl (by simp [path1, Path.num_poses])))
  exact ⟨h.1, h.2.1, h.2.2.1, h.2.2.2.1, h.2.2.2.2.2.2.2.1⟩

/-- Claim C7: the planner reset hook is invoked if and only if the
hallway-states-updated flag is true at the post-loop read and the robot
planner is PRM or A-star; the main loop itself never touches the planner
reset counter (never mid-loop), and the final robot holds exactly one
increment when the hook was invoked and none otherwise (exactly once,
after the loop). -/
theorem C7_planner_reset_after_loop (cfg : ExecutorConfig) (env : Env)
    (gen : Path → ℚ → Option ℚ → Option Trajectory)
    (interp : Trajectory → ℚ → Option Trajectory) (robot : Robot)
    (vt0 lt0 : Bool) (traj0 : Option Trajectory) (st0 : ExecState)
    (path : Path) (u : ℚ) (lh lc : Bool) :
    (∀ (vd vt fog lt : Bool) (samples : List (ℚ × Pose)) (i : Nat)
      (prev : Pose) (st : ExecState) (r : Robot),
      (execLoop env u vd vt fog lt samples i prev st
        r).robot.planner_reset_count = r.planner_reset_count)
    ∧ ((execute cfg env gen interp (some robot) vt0 lt0 traj0 st0 path u lh
        lc).plannerResetInvoked = true ↔
      ((execute cfg env gen interp (some robot) vt0 lt0 traj0 st0 path u lh
          lc).exitKind ≠ none
        ∧ (execute cfg env gen interp (some robot) vt0 lt0 traj0 st0 path u
            lh lc).loopState.hallway_states_updated = true
        ∧ robot.path_planner.isPRMOrAStar = true))
    ∧ (∀ rf, (execute cfg env gen interp (some robot) vt0 lt0 traj0 st0
        path u lh lc).robot = some rf →
      rf.planner_reset_count = robot.planner_reset_count +
        (if (execute cfg env gen interp (some robot) vt0 lt0 traj0 st0 path
          u lh lc).plannerResetInvoked = true then 1 else 0)) := by
  refine ⟨fun vd vt fog lt samples i prev st r =>
    (execLoop_planner env u vd vt fog lt samples i prev st r).2, ?_⟩
  by_cases hlen : path.num_poses < 2
  · constructor
    · simp [execute, hlen]
    · intro rf hrf
      simp [execute, hlen] at hrf ⊢
      simp [← hrf]
  · cases hgen : gen path cfg.linear_velocity cfg.max_angular_velocity with
    | none =>
      constructor
      · simp [execute, hlen, hgen]
      · intro rf hrf
        simp [execute, hlen, hgen] at hrf ⊢
        simp [← hrf]
    | some traj =>
      cases hint : interp traj cfg.dt with
      | none =>
        constructor
        · simp [execute, hlen, hgen, hint]
        · intro rf hrf
          simp [execute, hlen, hgen, hint] at hrf ⊢
          simp [← hrf]
      | some ti =>
        have hpp := execLoop_planner env u cfg.validate_during_execution
          (vt0 || cfg.validate_during_execution && robot.world_present)
          robot.fog_hallways (lt0 || robot.fog_hallways)
          (ti.t_pts.zip ti.poses) 0
          (ti.poses.headD { x := 0, y := 0, yaw := 0 })
          { reset_state with following_path := true } robot
        simp at hpp
        obtain ⟨hpp1, hpp2⟩ := hpp
        constructor
        · simp only [execute, hlen, hgen, hint]
          simp [hpp1, Bool.and_eq_true]
        · intro rf hrf
          simp [execute, hlen, hgen, hint] at hrf ⊢
          rw [← hrf]
          split <;> simp_all

/-- Witness for C7 on a concrete run whose hallway knowledge changes and
whose robot uses a PRM planner: the reset hook runs exactly once. -/
theorem C7_planner_reset_after_loop_witness :
    (execute cfg0 env0 gen2 interp2 (some robot0) false false none
      reset_state path2 0 true false).plannerResetInvoked = true
    ∧ ({ robot0 with
          planner_reset_count := 1
          last_nav_result :=
            some { status := .SUCCESS, message := "" } } :
        Robot).planner_reset_count =
      robot0.planner_reset_count +
        (if (execute cfg0 env0 gen2 interp2 (some robot0) false false none
          reset_state path2 0 true false).plannerResetInvoked = true
        then 1 else 0) := by
  have h := C7_planner_reset_after_loop cfg0 env0 gen2 interp2 robot0 false
    false none reset_state path2 0 true false
  have hr : (execute cfg0 env0 gen2 interp2 (some robot0) false false none
      reset_state path2 0 true false).robot =
      some { robot0 with
        planner_reset_count := 1
        last_nav_result := some { status := .SUCCESS, message := "" } } := by
    norm_num [execute, execLoop, cfg0, env0, robot0, gen2, interp2, traj2,
      path2, Path.num_poses, reset_state, pose0, PlannerType.isPRMOrAStar]
  refine ⟨h.2.1.mpr ⟨?_, ?_, rfl⟩, h.2.2 _ hr⟩
  · have hkc : (execute cfg0 env0 gen2 interp2 (some robot0) false false
        none reset_state path2 0 true false).exitKind =
        some .completed := by
      norm_num [execute, execLoop, cfg0, env0, robot0, gen2, interp2, traj2,
        path2, Path.num_poses, reset_state, pose0]
    simp [hkc]
  · norm_num [execute, execLoop, cfg0, env0, robot0, gen2, interp2, traj2,
      path2, Path.num_poses, reset_state, pose0]

/-- Claim C10: on a run that passes its preconditions, a cancel request
that never lands at a loop-tick flag check (only after the last one)
never yields a CANCELED result: the end-of-run reset silently discards
it and execute returns with all five execution-state fields at their
baseline values. -/
theorem C10_late_cancel_discarded (cfg : ExecutorConfig) (env : Env)
    (gen : Path → ℚ → Option ℚ → Option Trajectory)
    (interp : Trajectory → ℚ → Option Trajectory) (robot : Robot)
    (vt0 lt0 : Bool) (traj0 : Option Trajectory) (st0 : ExecState)
    (path : Path) (u : ℚ) (lh lc : Bool)
    (hc : ∀ j, env.cancelSet j = false)
    (hk : (execute cfg env gen interp (some robot) vt0 lt0 traj0 st0 path u
      lh lc).exitKind ≠ none) :
    (execute cfg env gen interp (some robot) vt0 lt0 traj0 st0 path u lh
      lc).result.status ≠ .CANCELED
    ∧ (execute cfg env gen interp (some robot) vt0 lt0 traj0 st0 path u lh
        lc).state = reset_state
    ∧ (execute cfg env gen interp (some robot) vt0 lt0 traj0 st0 path u lh
        lc).state.current_traj_time = 0
    ∧ (execute cfg env gen interp (some robot) vt0 lt0 traj0 st0 path u lh
        lc).state.following_path = false
    ∧ (execute cfg env gen interp (some robot) vt0 lt0 traj0 st0 path u lh
        lc).state.abort_execution = false
    ∧ (execute cfg env gen interp (some robot) vt0 lt0 traj0 st0 path u lh
        lc).state.cancel_execution = false
    ∧ (execute cfg env gen interp (some robot) vt0 lt0 traj0 st0 path u lh
        lc).state.hallway_states_updated = false := by
  by_cases hlen : path.num_poses < 2
  · exact absurd (by simp [execute, hlen]) hk
  · cases hgen : gen path cfg.linear_velocity cfg.max_angular_velocity with
    | none => exact absurd (by simp [execute, hlen, hgen]) hk
    | some traj =>
      cases hint : interp traj cfg.dt with
      | none => exact absurd (by simp [execute, hlen, hgen, hint]) hk
      | some ti =>
        refine ⟨?_, ?_, ?_, ?_, ?_, ?_, ?_⟩ <;>
          simp [execute, hlen, hgen, hint, reset_state]
        exact execLoop_no_cancel _ _ _ _ _ _ hc _ _ _ _ _ rfl

/-- Witness for C10 on a concrete completed run with a cancel request
landing only after the loop. -/
theorem C10_late_cancel_discarded_witness :
    (execute cfg0 env0 gen2 interp2 (some robot0) false false none
      reset_state path2 0 false true).result.status ≠ .CANCELED
    ∧ (execute cfg0 env0 gen2 interp2 (some robot0) false false none
        reset_state path2 0 false true).state = reset_state
    ∧ (execute cfg0 env0 gen2 interp2 (some robot0) false false none
        reset_state path2 0 false true).state.cancel_execution = false := by
  have hkc : (execute cfg0 env0 gen2 interp2 (some robot0) false false none
      reset_state path2 0 false true).exitKind = some .completed := by
    norm_num [execute, execLoop, cfg0, env0, robot0, gen2, interp2, traj2,
      path2, Path.num_poses, reset_state, pose0]
  have h := C10_late_cancel_discarded cfg0 env0 gen2 interp2 robot0 false
    false none reset_state path2 0 false true (fun j => rfl)
    (by simp [hkc])
  exact ⟨h.1, h.2.1, h.2.2.2.2.2.1⟩

/-- A concrete three-point trajectory for the validator witness. -/
def traj3 : Trajectory :=
  { t_pts := [0, 1, 2], poses := [pose0, pose0, pose0] }

/-- A collision checker that always reports a collision. -/
def collFalse : Path → ℚ → Bool → List Hallway → Bool :=
  fun _ _ _ _ => false

/-- Witness for C3 on a concrete validator iteration that finds a
collision in mid-trajectory. -/
theorem C3_validator_earliest_index_witness :
    findWaypointIdx traj3.t_pts (1 / 2) ≤ 1
    ∧ (1 / 2 : ℚ) ≤ traj3.t_pts.getD (findWaypointIdx traj3.t_pts (1 / 2)) 0
    ∧ (validate_iteration traj3 pose0 (1 / 2) true (1 / 40) true []
        collFalse).candidate =
      pose0 :: traj3.poses.drop (findWaypointIdx traj3.t_pts (1 / 2))
    ∧ (validate_iteration traj3 pose0 (1 / 2) true (1 / 40) true []
        collFalse).abortRaised = true := by
  have h := C3_validator_earliest_index traj3 pose0 (1 / 2) true (1 / 40)
    true [] collFalse _ rfl
  refine ⟨h.1 1 (by norm_num [traj3]) (by norm_num [traj3]),
    h.2.1 ⟨1, by norm_num [traj3], by norm_num [traj3]⟩,
    h.2.2.2.2.1 (by norm_num [validate_iteration, findWaypointIdx, traj3,
      Trajectory.num_points, collFalse]),
    h.2.2.2.2.2.2.mpr ⟨by norm_num [validate_iteration, findWaypointIdx,
      traj3, Trajectory.num_points, collFalse], rfl⟩⟩

end Pyrobosim
